import Mathlib

/-!
Shallow embedding of the movie-catalog application (Django project
`myproject/movies`): data model, catalog query/aggregation, review upsert,
watchlist toggle, transactional movie+profile save, access-control
predicates, and the signed-token session check.  Each definition mirrors
the corresponding Python source in `movies/models.py`, `movies/views.py`,
`movies/serializers.py`, `movies/permissions.py`, `movies/auth_utils.py`
and `movies/decorators.py`.
-/

namespace MovieApp

/-- A `Review` row (`movies/models.py`, class `Review`): foreign keys to
user and movie, an integer rating and a comment.  Timestamps are not
modelled; row identity is positional in the review list. -/
structure Review where
  userId : Nat
  movieId : Nat
  rating : ℤ
  comment : String
deriving DecidableEq, Repr

/-- A `Movie` row (`movies/models.py`, class `Movie`).  `release_date` is
modelled as an ordinal day number together with its calendar year
(`releaseYear`), which is what the year-range filters compare against. -/
structure Movie where
  id : Nat
  name : String
  description : String
  actor : String
  duration : ℤ
  delivery_mode : String
  keywords : String
  release_date : ℤ
  releaseYear : ℤ
deriving DecidableEq, Repr

/-- A `MovieProfile` row (`movies/models.py`, class `MovieProfile`):
one-to-one companion of a `Movie` holding the poster reference and the
featured/trending flags. -/
structure MovieProfile where
  movieId : Nat
  is_featured : Bool
  is_trending : Bool
  poster_image : Option String
deriving DecidableEq, Repr

/-- The relational state: the `Movie`, `MovieProfile`, `Review` and
`Watchlist` tables.  A watchlist row is the (userId, movieId) pair; its
`added_at` timestamp is not modelled. -/
structure DB where
  movies : List Movie
  profiles : List MovieProfile
  reviews : List Review
  watchlist : List (Nat × Nat)
deriving DecidableEq, Repr

/-- Embeds `movie.reviews.all()`: the reviews whose foreign key points at the
given movie id. -/
def reviewsOf (db : DB) (mid : Nat) : List Review :=
  db.reviews.filter (fun r => r.movieId = mid)

/-- Round-half-to-even to an integer, the rounding mode of Python's
built-in `round`. -/
def rhe (q : ℚ) : ℤ :=
  if q - ⌊q⌋ < 1/2 then ⌊q⌋
  else if (1:ℚ)/2 < q - ⌊q⌋ then ⌊q⌋ + 1
  else if ⌊q⌋ % 2 = 0 then ⌊q⌋ else ⌊q⌋ + 1

/-- Python `round(x, 1)`: round to one decimal place (half to even). -/
def round1 (q : ℚ) : ℚ := (rhe (10 * q) : ℚ) / 10

/-- Embeds `Movie.get_average_rating` (`movies/models.py`): if the movie has
reviews, `round(sum(ratings)/count, 1)`, else `0`. -/
def get_average_rating (db : DB) (mid : Nat) : ℚ :=
  if (reviewsOf db mid).isEmpty then 0
  else round1 ((((reviewsOf db mid).map (fun r => (r.rating : ℚ))).sum) /
    (reviewsOf db mid).length)

/-- Embeds `Movie.get_review_count` (`movies/models.py`). -/
def get_review_count (db : DB) (mid : Nat) : Nat :=
  (reviewsOf db mid).length

/-- The `avg_rating=Avg('reviews__rating')` annotation of the movie-list
queryset (`movies/views.py`, `movie_list`): SQL `AVG` is `NULL` (here
`none`) when the movie has no reviews, otherwise the exact mean. -/
def avgAnnot (db : DB) (mid : Nat) : Option ℚ :=
  if (reviewsOf db mid).isEmpty then none
  else some ((((reviewsOf db mid).map (fun r => (r.rating : ℚ))).sum) /
    (reviewsOf db mid).length)

/-- The `review_count=Count('reviews')` annotation of the movie-list
queryset (`movies/views.py`, `movie_list`). -/
def cntAnnot (db : DB) (mid : Nat) : Nat :=
  (reviewsOf db mid).length

/-- The per-movie average computed by `watchlist_page`
(`movies/views.py`): `sum(r.rating for r in reviews) / reviews.count()`
with no rounding, and `0` when there are no reviews. -/
def watchlistPageAvg (db : DB) (mid : Nat) : ℚ :=
  if (reviewsOf db mid).isEmpty then 0
  else (((reviewsOf db mid).map (fun r => (r.rating : ℚ))).sum) /
    (reviewsOf db mid).length

/-- Python `str.upper()` restricted to its ASCII behaviour, which covers
every string the delivery-mode check and the search filter compare. -/
def pyUpper (s : String) : String := ⟨s.data.map Char.toUpper⟩

/-- Python `str.lower()` restricted to its ASCII behaviour. -/
def pyLower (s : String) : String := ⟨s.data.map Char.toLower⟩

/-- Contiguous-sublist test on character lists, used to model SQL `LIKE
\x25pat\x25` / the ORM `icontains` lookup. -/
def containsSub (hay pat : List Char) : Bool :=
  match hay with
  | [] => pat.isEmpty
  | _ :: t => pat.isPrefixOf hay || containsSub t pat

/-- The ORM `icontains` lookup: case-insensitive substring match. -/
def icontains (field query : String) : Bool :=
  containsSub (pyLower field).data (pyLower query).data

/-- A numeric query-string parameter as `movie_list` sees it after the
`if param:` guard and the `try: float(...)/int(...) except ValueError`
parse: absent/empty, present but not parseable, or parsed to a value. -/
inductive Param (α : Type) where
  | absent
  | malformed
  | val (a : α)
deriving DecidableEq, Repr

/-- The query parameters of `movie_list` (`movies/views.py`). -/
structure ListQuery where
  sort_by : String
  search : String
  delivery_mode : String
  min_rating : Param ℚ
  year_from : Param ℤ
  year_to : Param ℤ
deriving Repr

/-- The free-text search filter of `movie_list`: `icontains` over name,
actor, keywords and description, OR-ed; an empty query applies no filter. -/
def passesSearch (query : String) (m : Movie) : Bool :=
  if query = "" then true
  else icontains m.name query || icontains m.actor query ||
    icontains m.keywords query || icontains m.description query

/-- The delivery-mode filter of `movie_list`: exact equality when the
parameter is non-empty. -/
def passesDelivery (dm : String) (m : Movie) : Bool :=
  if dm = "" then true else m.delivery_mode = dm

/-- The minimum-rating filter of `movie_list`:
`movies.filter(avg_rating__gte=v)` under SQL `NULL` semantics — a movie
whose `AVG` is `NULL` never satisfies the comparison.  Absent and
malformed parameters apply no filter (`except ValueError: pass`). -/
def passesMinRating (db : DB) (p : Param ℚ) (m : Movie) : Bool :=
  match p with
  | .absent => true
  | .malformed => true
  | .val v =>
    match avgAnnot db m.id with
    | none => false
    | some a => v ≤ a

/-- The `release_date__year__gte` filter of `movie_list`. -/
def passesYearFrom (p : Param ℤ) (m : Movie) : Bool :=
  match p with
  | .absent => true
  | .malformed => true
  | .val y => y ≤ m.releaseYear

/-- The `release_date__year__lte` filter of `movie_list`. -/
def passesYearTo (p : Param ℤ) (m : Movie) : Bool :=
  match p with
  | .absent => true
  | .malformed => true
  | .val y => m.releaseYear ≤ y

/-- All filters of `movie_list` applied in source order. -/
def applyFilters (db : DB) (q : ListQuery) : List Movie :=
  ((((db.movies.filter (passesSearch q.search)).filter
    (passesDelivery q.delivery_mode)).filter
    (passesMinRating db q.min_rating)).filter
    (passesYearFrom q.year_from)).filter (passesYearTo q.year_to)

/-- Three-way comparison on ℚ. -/
def cmpQ (x y : ℚ) : Ordering :=
  if x < y then .lt else if y < x then .gt else .eq

/-- Three-way comparison on `Option ℚ` with SQL `NULL` treated as the
smallest value (SQLite ordering of `NULL`). -/
def cmpOpt (x y : Option ℚ) : Ordering :=
  match x, y with
  | none, none => .eq
  | none, some _ => .lt
  | some _, none => .gt
  | some a, some b => cmpQ a b

/-- Three-way comparison on ℤ. -/
def cmpZ (x y : ℤ) : Ordering :=
  if x < y then .lt else if y < x then .gt else .eq

/-- Three-way comparison on ℕ. -/
def cmpN (x y : Nat) : Ordering :=
  if x < y then .lt else if y < x then .gt else .eq

/-- The ordering requested by `movie_list`'s `order_by` calls
(`movies/views.py` lines 81–93), as a three-way comparator: a `-key`
prefix reverses that key's comparison, and a second key is consulted only
on ties of the first (`Ordering.then`). -/
def orderKeys (db : DB) (sort_by : String) (a b : Movie) : Ordering :=
  if sort_by = "best_rated" then
    (cmpOpt (avgAnnot db b.id) (avgAnnot db a.id)).then
      (cmpN (cntAnnot db b.id) (cntAnnot db a.id))
  else if sort_by = "worst_rated" then
    (cmpOpt (avgAnnot db a.id) (avgAnnot db b.id)).then
      (cmpN (cntAnnot db b.id) (cntAnnot db a.id))
  else if sort_by = "most_reviewed" then
    (cmpN (cntAnnot db b.id) (cntAnnot db a.id)).then
      (cmpOpt (avgAnnot db b.id) (avgAnnot db a.id))
  else if sort_by = "least_reviewed" then
    (cmpN (cntAnnot db a.id) (cntAnnot db b.id)).then
      (cmpOpt (avgAnnot db b.id) (avgAnnot db a.id))
  else if sort_by = "oldest" then
    cmpZ a.release_date b.release_date
  else
    cmpZ b.release_date a.release_date

/-- The full `movie_list` result set (before pagination): filtered, then
ordered by the requested sort key. -/
def movie_list (db : DB) (q : ListQuery) : List Movie :=
  (applyFilters db q).mergeSort (fun a b => orderKeys db q.sort_by a b ≠ .gt)

/-- Embeds `Review.objects.filter(user=u, movie=m).first()`: the first review row
of the given user for the given movie, if any. -/
def findReview (db : DB) (u mid : Nat) : Option Review :=
  (db.reviews.filter (fun r => r.userId = u && r.movieId = mid)).head?

/-- The rows of the `Review` table belonging to a (user, movie) pair. -/
def reviewsFor (db : DB) (u mid : Nat) : List Review :=
  db.reviews.filter (fun r => r.userId = u && r.movieId = mid)

/-- The review-submission logic shared by the POST branch of
`movie_detail` and by `ReviewListCreateAPIView.perform_create`
(`movies/views.py`): look up the requester's existing review of the movie;
if one exists overwrite its rating and comment and save, otherwise insert
a new row owned by the requester. -/
def submit_review (db : DB) (u mid : Nat) (rating : ℤ) (comment : String) : DB :=
  match findReview db u mid with
  | some _ =>
    { db with reviews := db.reviews.map (fun r =>
        if r.userId = u && r.movieId = mid then
          { r with rating := rating, comment := comment }
        else r) }
  | none =>
    { db with reviews := ⟨u, mid, rating, comment⟩ :: db.reviews }

/-- Embeds `toggle_watchlist` (`movies/views.py`): if a watchlist row for
(user, movie) exists delete it, otherwise create one.  Both branches are
total — neither raises. -/
def toggle_watchlist (db : DB) (u mid : Nat) : DB :=
  if (u, mid) ∈ db.watchlist then
    { db with watchlist := db.watchlist.erase (u, mid) }
  else
    { db with watchlist := (u, mid) :: db.watchlist }

/-- The `unique_together ['user', 'movie']` constraint on `Review`
(`movies/models.py`): no two review rows share a (user, movie) pair. -/
def UniqueReviews (db : DB) : Prop :=
  db.reviews.Pairwise (fun a b => ¬ (a.userId = b.userId ∧ a.movieId = b.movieId))

/-- The `unique_together ['user', 'movie']` constraint on `Watchlist`
(`movies/models.py`): no duplicate watchlist rows. -/
def UniqueWatchlist (db : DB) : Prop :=
  db.watchlist.Nodup

/-- Run a list of write steps sequentially; `none` from a step is a raised
exception. -/
def runSteps (s : DB) : List (DB → Option DB) → Option DB
  | [] => some s
  | f :: fs =>
    match f s with
    | none => none
    | some t => runSteps t fs

/-- Embeds `transaction.atomic`: execute the steps; if any step raises, every
write is rolled back and the state is the one at entry. -/
def runAtomic (s0 : DB) (steps : List (DB → Option DB)) : DB :=
  match runSteps s0 steps with
  | none => s0
  | some s => s

/-- The form data of `AddMovieForm`/`UpdateMovieForm` (`movies/forms.py`):
movie fields plus the profile fields `is_featured`, `is_trending` and the
optional `poster_image`. -/
structure MovieForm where
  name : String
  description : String
  actor : String
  duration : ℤ
  delivery_mode : String
  keywords : String
  release_date : ℤ
  releaseYear : ℤ
  is_featured : Bool
  is_trending : Bool
  poster_image : Option String
deriving Repr

/-- The primary key the database assigns to a newly inserted movie. -/
def freshId (db : DB) : Nat :=
  (db.movies.map Movie.id).foldr max 0 + 1

/-- Embeds `form.save()` in `MovieCreateView.form_valid`: insert the movie row;
the `post_save` signal (`movies/models.py`, `create_movie_profile`)
synchronously inserts its profile with default flags and no poster. -/
def form_save_create (f : MovieForm) (db : DB) : DB :=
  let mid := freshId db
  { db with
    movies := db.movies ++
      [⟨mid, f.name, f.description, f.actor, f.duration, f.delivery_mode,
        f.keywords, f.release_date, f.releaseYear⟩],
    profiles := db.profiles ++ [⟨mid, false, false, none⟩] }

/-- Embeds `form.save()` in `MovieUpdateView.form_valid`: overwrite the movie
row's fields in place. -/
def form_save_update (f : MovieForm) (mid : Nat) (db : DB) : DB :=
  { db with movies := db.movies.map (fun m =>
      if m.id = mid then
        { m with
          name := f.name
          description := f.description
          actor := f.actor
          duration := f.duration
          delivery_mode := f.delivery_mode
          keywords := f.keywords
          release_date := f.release_date
          releaseYear := f.releaseYear }
      else m) }

/-- The profile write of `form_valid`: set `is_featured`/`is_trending`
from the form, overwrite the poster only when one was uploaded, and save. -/
def profile_update (mid : Nat) (f : MovieForm) (db : DB) : DB :=
  { db with profiles := db.profiles.map (fun p =>
      if p.movieId = mid then
        { p with
          is_featured := f.is_featured
          is_trending := f.is_trending
          poster_image :=
            match f.poster_image with
            | some img => some img
            | none => p.poster_image }
      else p) }

/-- Embeds `MovieCreateView.form_valid` (`movies/views.py`), decorated with
`@transaction.atomic`: the movie write then the profile write run inside
one transaction.  `failMovie`/`failProfile` inject a raised exception in
the corresponding step. -/
def movieCreateTxn (db : DB) (f : MovieForm) (failMovie failProfile : Bool) : DB :=
  let mid := freshId db
  runAtomic db
    [fun s => if failMovie then none else some (form_save_create f s),
     fun s => if failProfile then none else some (profile_update mid f s)]

/-- Embeds `MovieUpdateView.form_valid` (`movies/views.py`), decorated with
`@transaction.atomic`. -/
def movieUpdateTxn (db : DB) (f : MovieForm) (mid : Nat)
    (failMovie failProfile : Bool) : DB :=
  runAtomic db
    [fun s => if failMovie then none else some (form_save_update f mid s),
     fun s => if failProfile then none else some (profile_update mid f s)]

/-- The ordering as the spec sentence describes it — written from the
spec's words, for comparison with `orderKeys`: primary key per sort name,
and for every sort other than `oldest`/`newest` ties in the primary key
broken secondarily by review count in descending order. -/
def claimedOrderKeys (db : DB) (sort_by : String) (a b : Movie) : Ordering :=
  if sort_by = "best_rated" then
    (cmpOpt (avgAnnot db b.id) (avgAnnot db a.id)).then
      (cmpN (cntAnnot db b.id) (cntAnnot db a.id))
  else if sort_by = "worst_rated" then
    (cmpOpt (avgAnnot db a.id) (avgAnnot db b.id)).then
      (cmpN (cntAnnot db b.id) (cntAnnot db a.id))
  else if sort_by = "most_reviewed" then
    (cmpN (cntAnnot db b.id) (cntAnnot db a.id)).then
      (cmpN (cntAnnot db b.id) (cntAnnot db a.id))
  else if sort_by = "least_reviewed" then
    (cmpN (cntAnnot db a.id) (cntAnnot db b.id)).then
      (cmpN (cntAnnot db b.id) (cntAnnot db a.id))
  else if sort_by = "oldest" then
    cmpZ a.release_date b.release_date
  else
    cmpZ b.release_date a.release_date

/-- The request context the permission predicates consult: whether the
requester is authenticated, their staff flag (`False` for an anonymous
user), and the HTTP method. -/
structure Ctx where
  authenticated : Bool
  is_staff : Bool
  method : String
deriving DecidableEq, Repr

/-- DRF `SAFE_METHODS`. -/
def SAFE_METHODS : List String := ["GET", "HEAD", "OPTIONS"]

/-- Embeds `IsStaffOrReadOnly.has_permission` (`movies/permissions.py`): safe
methods are always allowed; writes require the staff flag. -/
def has_permission (c : Ctx) : Bool :=
  if c.method ∈ SAFE_METHODS then true else c.is_staff

/-- Embeds `test_func` of `MovieCreateView` / `MovieUpdateView` /
`MovieDeleteView` (`movies/views.py`): `request.user.is_staff`. -/
def test_func (c : Ctx) : Bool := c.is_staff

/-- Outcome of dispatching a request through the view's guards. -/
inductive ViewResult where
  | redirectLogin
  | forbidden
  | unauthorized
  | success
deriving DecidableEq, Repr

/-- Dispatch of the browser-facing catalog-mutation views
(`LoginRequiredMixin` + `UserPassesTestMixin`): an anonymous request is
redirected to the login page; an authenticated request failing
`test_func` raises `PermissionDenied` (HTTP 403); otherwise the mutation
runs.  On anything but success the database is untouched. -/
def browserMutationDispatch (c : Ctx) (db : DB) (mutate : DB → DB) :
    ViewResult × DB :=
  if ¬ c.authenticated then (.redirectLogin, db)
  else if ¬ test_func c then (.forbidden, db)
  else (.success, mutate db)

/-- Dispatch of the API catalog-mutation endpoints:
`MovieListCreateAPIView` POST runs under `IsAdminUser`, and
`MovieRetrieveUpdateDestroyAPIView` PUT/DELETE under `IsStaffOrReadOnly`;
both deny exactly when the requester lacks the staff flag, and DRF turns
the denial into 401 for an unauthenticated request and 403 for an
authenticated one — never a redirect. -/
def apiMutationDispatch (c : Ctx) (db : DB) (mutate : DB → DB) :
    ViewResult × DB :=
  if c.is_staff then (.success, mutate db)
  else if c.authenticated then (.forbidden, db)
  else (.unauthorized, db)

/-- Embeds `TOKEN_MAX_AGE` (`movies/auth_utils.py`): one hour, in seconds. -/
def TOKEN_MAX_AGE : Nat := 60 * 60

/-- A value produced by `TimestampSigner.sign(str(user_id))`: the signed
payload, its signing timestamp, and the attached signature. -/
structure Token where
  userId : Nat
  issuedAt : Nat
  sig : Nat
deriving DecidableEq, Repr

/-- The HMAC of `TimestampSigner`, modelled as a keyed injective pairing:
a signature verifies exactly when it equals `mac key payload timestamp`. -/
def mac (key userId issuedAt : Nat) : Nat :=
  Nat.pair userId issuedAt + key

/-- Embeds `create_token` (`movies/auth_utils.py`): sign the user id with the
current timestamp. -/
def create_token (key now userId : Nat) : Token :=
  ⟨userId, now, mac key userId now⟩

/-- Embeds `validate_token` (`movies/auth_utils.py`): `False` for a missing
token; otherwise `signer.unsign(token, max_age=TOKEN_MAX_AGE)` — the
signature must verify and the token's age must not exceed the max age
(`SignatureExpired`/`BadSignature` are caught and yield `False`). -/
def validate_token (key now : Nat) (token : Option Token) : Bool :=
  match token with
  | none => false
  | some t => (t.sig = mac key t.userId t.issuedAt) && (now - t.issuedAt ≤ TOKEN_MAX_AGE)

/-- Outcome of a view guarded by `token_required`. -/
inductive GuardResult (α : Type) where
  | ranView (a : α)
  | redirectLogin (flushed : Bool)
deriving DecidableEq, Repr

/-- The `token_required` decorator (`movies/decorators.py`): an
unauthenticated request is redirected (session kept); an authenticated
request whose session token is absent or fails `validate_token` is logged
out, has its session flushed, and is redirected; otherwise the view
runs. -/
def token_required {α : Type} (key now : Nat) (auth : Bool)
    (sessionToken : Option Token) (view : Unit → α) : GuardResult α :=
  if ¬ auth then .redirectLogin false
  else if ¬ validate_token key now sessionToken then .redirectLogin true
  else .ranView (view ())

/-- Embeds `allowed_modes` of `validate_delivery_mode` (`movies/serializers.py`). -/
def allowed_modes : List String := ["THEATER", "STREAMING"]

/-- Embeds `validate_delivery_mode` (`movies/serializers.py`): reject unless
`value.upper()` is `THEATER` or `STREAMING`; on success return
`value.upper()`. -/
def validate_delivery_mode (value : String) : Except String String :=
  if pyUpper value ∈ allowed_modes then .ok (pyUpper value)
  else .error "Delivery mode must be either THEATER or STREAMING"

/-- Modelled from the spec: the average-rating figure the movie-list page
displays per movie.  The rendering template is not among the source files;
the spec says the listing reports each movie's average rating with
zero-review movies reporting 0, which is the value of the model accessor
`Movie.get_average_rating`. -/
def listedAverage (db : DB) (mid : Nat) : ℚ := get_average_rating db mid

/-- A sample movie with id 1. -/
def mvA : Movie := ⟨1, "Alpha", "d", "a", 100, "THEATER", "k", 10, 2000⟩

/-- A sample movie with id 2. -/
def mvB : Movie := ⟨2, "Beta", "d", "a", 100, "THEATER", "k", 20, 2005⟩

/-- Two movies with one review each (equal review counts, different
averages): movie 1 averages 5, movie 2 averages 3. -/
def dbTie : DB := ⟨[mvA, mvB], [], [⟨7, 1, 5, "x"⟩, ⟨7, 2, 3, "y"⟩], []⟩

/-- One movie with three reviews rated 1, 1, 2: the exact mean 4/3 differs
from its one-decimal rounding 1.3. -/
def dbAvg : DB := ⟨[mvA], [], [⟨1, 1, 1, "a"⟩, ⟨2, 1, 1, "b"⟩, ⟨3, 1, 2, "c"⟩], []⟩

/-- Database `dbAvg` with its first two reviews inserted in the opposite order. -/
def dbAvgSwapped : DB :=
  ⟨[mvA], [], [⟨2, 1, 1, "b"⟩, ⟨1, 1, 1, "a"⟩, ⟨3, 1, 2, "c"⟩], []⟩

/-- One movie and no reviews at all. -/
def dbZero : DB := ⟨[mvA], [], [], []⟩

/-- One movie, one review by user 7 with rating 4. -/
def dbOne : DB := ⟨[mvA], [], [⟨7, 1, 4, "ok"⟩], []⟩

/-- One movie, with (7, 1) on the watchlist. -/
def dbWatch : DB := ⟨[mvA], [], [], [(7, 1)]⟩

/-- A movie-list query with every parameter absent and the default sort. -/
def qDefault : ListQuery := ⟨"newest", "", "", .absent, .absent, .absent⟩

/-- Sample form data for the create/update transactions. -/
def fmSample : MovieForm :=
  ⟨"Gamma", "d", "a", 120, "STREAMING", "k", 30, 2010, true, false, some "p.png"⟩

/-! ## Theorems -/

/-- Comparator `cmpQ` is reflexive-equal. -/
theorem cmpQ_self (x : ℚ) : cmpQ x x = .eq := by
  simp [cmpQ]

/-- Comparator `cmpOpt` is reflexive-equal. -/
theorem cmpOpt_self (x : Option ℚ) : cmpOpt x x = .eq := by
  cases x with
  | none => rfl
  | some a => simp [cmpOpt, cmpQ_self]

/-- Comparator `cmpN` is reflexive-equal. -/
theorem cmpN_self (n : Nat) : cmpN n n = .eq := by
  simp [cmpN]

/-- C10: the API's delivery-mode validation is case-insensitive — a string
is accepted exactly when its uppercasing is `THEATER` or `STREAMING`, so
any casing of those two words passes — the accepted value stored is the
uppercased form, and every other string is rejected with a validation
error. -/
theorem delivery_mode_upper (s : String) :
    (∀ r, validate_delivery_mode s = Except.ok r ↔
      (r = pyUpper s ∧ (pyUpper s = "THEATER" ∨ pyUpper s = "STREAMING"))) ∧
    ((∃ e, validate_delivery_mode s = Except.error e) ↔
      ¬ (pyUpper s = "THEATER" ∨ pyUpper s = "STREAMING")) := by
  unfold validate_delivery_mode allowed_modes
  by_cases h : pyUpper s = "THEATER" ∨ pyUpper s = "STREAMING"
  · simp [h]
    intro r
    exact eq_comm
  · simp [h]

/-- C9: a `min_rating`, `year_from` or `year_to` parameter that fails
numeric parsing is ignored silently — the (total, hence non-erroring)
movie-list result equals that of the same query with the parameter
absent. -/
theorem malformed_filters_ignored (db : DB) (s se dm : String)
    (mr : Param ℚ) (yf yt : Param ℤ) :
    movie_list db ⟨s, se, dm, .malformed, yf, yt⟩ =
      movie_list db ⟨s, se, dm, .absent, yf, yt⟩ ∧
    movie_list db ⟨s, se, dm, mr, .malformed, yt⟩ =
      movie_list db ⟨s, se, dm, mr, .absent, yt⟩ ∧
    movie_list db ⟨s, se, dm, mr, yf, .malformed⟩ =
      movie_list db ⟨s, se, dm, mr, yf, .absent⟩ :=
  ⟨rfl, rfl, rfl⟩

/-- C7: `validate_token` returns `true` exactly when a token is present,
its signature verifies, and its age is at most one hour
(`TOKEN_MAX_AGE = 3600` seconds); and on any `token_required` view an
authenticated request whose session token fails validation is logged out
with its session flushed and redirected to re-authentication, while a
valid token lets the view run. -/
theorem token_guard (key now : Nat) (tok : Option Token) :
    TOKEN_MAX_AGE = 3600 ∧
    (validate_token key now tok = true ↔
      ∃ t, tok = some t ∧ t.sig = mac key t.userId t.issuedAt ∧
        now - t.issuedAt ≤ TOKEN_MAX_AGE) ∧
    (∀ (α : Type) (view : Unit → α),
      (validate_token key now tok = false →
        token_required key now true tok view = .redirectLogin true) ∧
      (validate_token key now tok = true →
        token_required key now true tok view = .ranView (view ()))) := by
  refine ⟨rfl, ?_, ?_⟩
  · cases tok with
    | none => simp [validate_token]
    | some t => simp [validate_token]
  · intro α view
    constructor
    · intro h
      simp [token_required, h]
    · intro h
      simp [token_required, h]

/-- Witness for C7 at concrete inputs: an absent token fails validation
and the guarded view logs out, flushes the session and redirects; the
token freshly created at the same instant validates and the view runs. -/
theorem token_guard_witness :
    token_required 5 100 true (none : Option Token) (fun _ => (0 : Nat)) =
      .redirectLogin true ∧
    token_required 5 100 true (some (create_token 5 100 9)) (fun _ => (0 : Nat)) =
      .ranView 0 := by
  constructor
  · exact ((token_guard 5 100 none).2.2 Nat (fun _ => 0)).1 (by decide)
  · exact ((token_guard 5 100 (some (create_token 5 100 9))).2.2 Nat (fun _ => 0)).2
      (by decide)

/-- C5: the movie write and the profile write of the create and update
views run inside one `transaction.atomic` block: a failure injected in
either step (in particular after the movie write, before the profile
write completes) leaves the stored state exactly unchanged, and absent
failure both writes are applied. -/
theorem movie_profile_atomic (db : DB) (f : MovieForm) (mid : Nat)
    (failMovie failProfile : Bool) :
    (failMovie = true ∨ failProfile = true →
      movieCreateTxn db f failMovie failProfile = db ∧
      movieUpdateTxn db f mid failMovie failProfile = db) ∧
    (movieCreateTxn db f false false =
      profile_update (freshId db) f (form_save_create f db) ∧
     movieUpdateTxn db f mid false false =
      profile_update mid f (form_save_update f mid db)) := by
  constructor
  · intro h
    cases failMovie with
    | true => exact ⟨rfl, rfl⟩
    | false =>
      cases failProfile with
      | true => exact ⟨rfl, rfl⟩
      | false => simp at h
  · exact ⟨rfl, rfl⟩

/-- Witness for C5 at concrete inputs: a failure between the movie write
and the profile write rolls the database back to its entry state. -/
theorem movie_profile_atomic_witness :
    movieCreateTxn dbZero fmSample false true = dbZero ∧
    movieUpdateTxn dbZero fmSample 1 false true = dbZero :=
  (movie_profile_atomic dbZero fmSample 1 false true).1 (Or.inr rfl)

/-- C6 counterexample: an anonymous (hence non-staff) POST to the
browser-facing movie-create view is answered with a redirect to the login
page, not with a forbidden result, contradicting "every non-staff request
is rejected with a forbidden result rather than a redirect". -/
theorem staff_gate_counterexample :
    browserMutationDispatch ⟨false, false, "POST"⟩ dbZero id =
      (.redirectLogin, dbZero) ∧
    (ViewResult.redirectLogin ≠ ViewResult.forbidden) := by
  constructor
  · rfl
  · decide

/-- C6 amended: a catalog mutation succeeds only for a staff requester and
a rejected request leaves the catalog unchanged; an authenticated
non-staff request gets a forbidden result, while an anonymous request is
redirected to login on the browser views and gets an unauthorized (still
non-redirect) result on the API. -/
theorem staff_gate_amended (c : Ctx) (db : DB) (mutate : DB → DB) :
    ((browserMutationDispatch c db mutate).1 = .success ↔
      c.authenticated = true ∧ c.is_staff = true) ∧
    (c.authenticated = true → c.is_staff = false →
      browserMutationDispatch c db mutate = (.forbidden, db)) ∧
    (c.authenticated = false →
      browserMutationDispatch c db mutate = (.redirectLogin, db)) ∧
    ((apiMutationDispatch c db mutate).1 = .success ↔ c.is_staff = true) ∧
    (c.is_staff = false →
      apiMutationDispatch c db mutate =
        (if c.authenticated then ViewResult.forbidden else .unauthorized, db) ∧
      (apiMutationDispatch c db mutate).1 ≠ .redirectLogin) := by
  obtain ⟨auth, staff, meth⟩ := c
  cases auth <;> cases staff <;>
    simp [browserMutationDispatch, apiMutationDispatch, test_func]

/-- Witness for C6 amended at concrete inputs: an authenticated non-staff
request to a browser mutation view is forbidden and the catalog is
unchanged. -/
theorem staff_gate_amended_witness :
    browserMutationDispatch ⟨true, false, "POST"⟩ dbZero id =
      (.forbidden, dbZero) :=
  (staff_gate_amended ⟨true, false, "POST"⟩ dbZero id).2.1 rfl rfl

/-- C3: for any user and movie, `toggle_watchlist` (a total function —
neither branch raises) flips membership of that pair, touches no other
pair, preserves the uniqueness constraint, and applied twice from any
starting state restores the original membership state of the watchlist. -/
theorem watchlist_toggle (db : DB) (u mid : Nat)
    (hw : UniqueWatchlist db) :
    (((u, mid) ∈ (toggle_watchlist db u mid).watchlist) ↔
      ¬ ((u, mid) ∈ db.watchlist)) ∧
    (∀ p, p ≠ (u, mid) →
      (p ∈ (toggle_watchlist db u mid).watchlist ↔ p ∈ db.watchlist)) ∧
    UniqueWatchlist (toggle_watchlist db u mid) ∧
    (∀ p, p ∈ (toggle_watchlist (toggle_watchlist db u mid) u mid).watchlist ↔
      p ∈ db.watchlist) := by
  unfold UniqueWatchlist at hw ⊢
  by_cases hm : (u, mid) ∈ db.watchlist
  · have h1 : toggle_watchlist db u mid =
        { db with watchlist := db.watchlist.erase (u, mid) } := by
      simp [toggle_watchlist, hm]
    have hnotmem : (u, mid) ∉ db.watchlist.erase (u, mid) := by
      intro hc
      exact ((hw.mem_erase_iff.mp hc).1) rfl
    refine ⟨?_, ?_, ?_, ?_⟩
    · simp [h1, hnotmem, hm]
    · intro p hp
      simp [h1, List.mem_erase_of_ne hp]
    · simpa [h1] using hw.erase _
    · intro p
      have h2 : toggle_watchlist (toggle_watchlist db u mid) u mid =
          { db with watchlist := (u, mid) :: db.watchlist.erase (u, mid) } := by
        rw [h1]
        simp [toggle_watchlist, hnotmem]
      by_cases hp : p = (u, mid)
      · simp [h2, hp, hm]
      · simp [h2, hp, List.mem_erase_of_ne hp]
  · have h1 : toggle_watchlist db u mid =
        { db with watchlist := (u, mid) :: db.watchlist } := by
      simp [toggle_watchlist, hm]
    refine ⟨?_, ?_, ?_, ?_⟩
    · simp [h1, hm]
    · intro p hp
      simp [h1, hp]
    · simp [h1, hw, hm]
    · intro p
      have h2 : toggle_watchlist (toggle_watchlist db u mid) u mid =
          { db with watchlist := ((u, mid) :: db.watchlist).erase (u, mid) } := by
        rw [h1]
        simp [toggle_watchlist]
      simp [h2, List.erase_cons_head]

/-- Witness for C3 at concrete inputs: toggling (7, 1) on a watchlist that
contains it and toggling it again restores its membership. -/
theorem watchlist_toggle_witness :
    (7, 1) ∈ (toggle_watchlist (toggle_watchlist dbWatch 7 1) 7 1).watchlist ↔
      (7, 1) ∈ dbWatch.watchlist :=
  (watchlist_toggle dbWatch 7 1 (by simp [UniqueWatchlist, dbWatch])).2.2.2 (7, 1)

/-- C8 counterexample: on the movie of `dbAvg`, whose three reviews are
rated 1, 1 and 2, the watchlist page and the list annotation report the
exact mean 4/3 while `Movie.get_average_rating` reports the one-decimal
rounding 13/10 — so not every surface reports `round(sum/count, 1)`. -/
theorem avg_surface_counterexample :
    get_average_rating dbAvg 1 = 13/10 ∧
    watchlistPageAvg dbAvg 1 = 4/3 ∧
    avgAnnot dbAvg 1 = some (4/3) ∧
    watchlistPageAvg dbAvg 1 ≠ get_average_rating dbAvg 1 ∧
    watchlistPageAvg dbAvg 1 ≠
      round1 ((((reviewsOf dbAvg 1).map (fun r => (r.rating : ℚ))).sum) /
        (reviewsOf dbAvg 1).length) := by
  have hr : reviewsOf dbAvg 1 = [⟨1, 1, 1, "a"⟩, ⟨2, 1, 1, "b"⟩, ⟨3, 1, 2, "c"⟩] := by
    rfl
  have h1 : get_average_rating dbAvg 1 = 13/10 := by
    rw [get_average_rating, hr]
    norm_num [round1, rhe]
  have h2 : watchlistPageAvg dbAvg 1 = 4/3 := by
    rw [watchlistPageAvg, hr]
    norm_num
  have h3 : avgAnnot dbAvg 1 = some (4/3) := by
    rw [avgAnnot, hr]
    norm_num
  refine ⟨h1, h2, h3, ?_, ?_⟩
  · rw [h1, h2]
    norm_num
  · rw [h2, hr]
    norm_num [round1, rhe]

/-- C8 amended: every reported average is insensitive to the order in
which reviews were inserted, and on a movie with at least one review the
per-movie accessor reports `round(sum/count, 1)` while the list annotation
and the watchlist page report the exact, unrounded mean `sum/count`. -/
theorem avg_surfaces_amended (db db' : DB) (mid : Nat)
    (hp : List.Perm db.reviews db'.reviews) :
    get_average_rating db mid = get_average_rating db' mid ∧
    watchlistPageAvg db mid = watchlistPageAvg db' mid ∧
    avgAnnot db mid = avgAnnot db' mid ∧
    ((reviewsOf db mid).isEmpty = false →
      get_average_rating db mid = round1 (watchlistPageAvg db mid) ∧
      watchlistPageAvg db mid =
        (((reviewsOf db mid).map (fun r => (r.rating : ℚ))).sum) /
          (reviewsOf db mid).length ∧
      avgAnnot db mid = some (watchlistPageAvg db mid)) := by
  have hperm : List.Perm (reviewsOf db mid) (reviewsOf db' mid) := hp.filter _
  have hlen : (reviewsOf db mid).length = (reviewsOf db' mid).length :=
    hperm.length_eq
  have hsum : ((reviewsOf db mid).map (fun r => (r.rating : ℚ))).sum =
      ((reviewsOf db' mid).map (fun r => (r.rating : ℚ))).sum :=
    (hperm.map _).sum_eq
  have hemp : (reviewsOf db mid).isEmpty = (reviewsOf db' mid).isEmpty := by
    rcases h1 : reviewsOf db mid with _ | ⟨a, t⟩
    · rw [h1] at hperm
      rw [hperm.symm.eq_nil]
    · rw [h1] at hlen
      rcases h2 : reviewsOf db' mid with _ | ⟨b, t2⟩
      · rw [h2] at hlen
        simp at hlen
      · rfl
  refine ⟨?_, ?_, ?_, ?_⟩
  · rw [get_average_rating, get_average_rating, hemp, hsum, hlen]
  · rw [watchlistPageAvg, watchlistPageAvg, hemp, hsum, hlen]
  · rw [avgAnnot, avgAnnot, hemp, hsum, hlen]
  · intro h
    rw [get_average_rating, watchlistPageAvg, avgAnnot, h]
    simp

/-- Witness for C8 amended at concrete inputs: inserting the first two
reviews of `dbAvg` in the opposite order changes none of the three
reported averages. -/
theorem avg_surfaces_amended_witness :
    get_average_rating dbAvg 1 = get_average_rating dbAvgSwapped 1 ∧
    watchlistPageAvg dbAvg 1 = watchlistPageAvg dbAvgSwapped 1 ∧
    avgAnnot dbAvg 1 = avgAnnot dbAvgSwapped 1 := by
  have hp : List.Perm dbAvg.reviews dbAvgSwapped.reviews := by
    show List.Perm
      [(⟨1, 1, 1, "a"⟩ : Review), ⟨2, 1, 1, "b"⟩, ⟨3, 1, 2, "c"⟩]
      [⟨2, 1, 1, "b"⟩, ⟨1, 1, 1, "a"⟩, ⟨3, 1, 2, "c"⟩]
    exact List.Perm.swap _ _ _
  obtain ⟨h1, h2, h3, _⟩ := avg_surfaces_amended dbAvg dbAvgSwapped 1 hp
  exact ⟨h1, h2, h3⟩

/-- C1: a movie with zero reviews has listed average rating 0 (the
accessor returns 0, as does the spec-modelled listing figure), review
count 0 (accessor and annotation), and — when no `min_rating` filter is
applied and the movie passes the other, unrelated filters — it appears in
the movie-list result set. -/
theorem zero_review_movies (db : DB) (q : ListQuery) (m : Movie)
    (hm : m ∈ db.movies) (hz : reviewsOf db m.id = [])
    (hmr : q.min_rating = Param.absent)
    (hs : passesSearch q.search m = true)
    (hd : passesDelivery q.delivery_mode m = true)
    (hyf : passesYearFrom q.year_from m = true)
    (hyt : passesYearTo q.year_to m = true) :
    listedAverage db m.id = 0 ∧
    get_average_rating db m.id = 0 ∧
    get_review_count db m.id = 0 ∧
    cntAnnot db m.id = 0 ∧
    m ∈ movie_list db q := by
  have h1 : get_average_rating db m.id = 0 := by
    rw [get_average_rating, hz]
    rfl
  have h2 : get_review_count db m.id = 0 := by
    rw [get_review_count, hz]
    rfl
  have h3 : cntAnnot db m.id = 0 := by
    rw [cntAnnot, hz]
    rfl
  have hmem : m ∈ applyFilters db q := by
    unfold applyFilters
    simp only [List.mem_filter]
    refine ⟨⟨⟨⟨⟨hm, hs⟩, hd⟩, ?_⟩, hyf⟩, hyt⟩
    rw [hmr]
    rfl
  refine ⟨h1, h1, h2, h3, ?_⟩
  rw [movie_list]
  exact (List.mergeSort_perm _ _).mem_iff.mpr hmem

/-- Witness for C1 at concrete inputs: the single zero-review movie of
`dbZero` has listed average 0 and review count 0, and appears in the
movie-list result under the default query. -/
theorem zero_review_movies_witness :
    listedAverage dbZero mvA.id = 0 ∧
    get_review_count dbZero mvA.id = 0 ∧
    mvA ∈ movie_list dbZero qDefault := by
  obtain ⟨h1, _, h2, _, h5⟩ :=
    zero_review_movies dbZero qDefault mvA (by simp [dbZero])
      rfl rfl rfl rfl rfl rfl
  exact ⟨h1, h2, h5⟩

/-- C4 counterexample: under `most_reviewed`, two movies tied on the
primary key (review count: both 1) are ordered by the code strictly by
average rating, whereas the claimed secondary key "review count
descending" would leave them tied — so ties of `most_reviewed` are not
broken by review count. -/
theorem sort_tiebreak_counterexample :
    cntAnnot dbTie 1 = cntAnnot dbTie 2 ∧
    orderKeys dbTie "most_reviewed" mvA mvB = .lt ∧
    claimedOrderKeys dbTie "most_reviewed" mvA mvB = .eq ∧
    orderKeys dbTie "most_reviewed" mvA mvB ≠
      claimedOrderKeys dbTie "most_reviewed" mvA mvB := by
  have hr1 : reviewsOf dbTie 1 = [⟨7, 1, 5, "x"⟩] := rfl
  have hr2 : reviewsOf dbTie 2 = [⟨7, 2, 3, "y"⟩] := rfl
  have ha1 : avgAnnot dbTie 1 = some 5 := by
    rw [avgAnnot, hr1]
    norm_num
  have ha2 : avgAnnot dbTie 2 = some 3 := by
    rw [avgAnnot, hr2]
    norm_num
  have ho : orderKeys dbTie "most_reviewed" mvA mvB =
      (cmpN (cntAnnot dbTie 2) (cntAnnot dbTie 1)).then
        (cmpOpt (avgAnnot dbTie 2) (avgAnnot dbTie 1)) := rfl
  have hlt : orderKeys dbTie "most_reviewed" mvA mvB = .lt := by
    rw [ho, ha1, ha2, show cntAnnot dbTie 2 = 1 from rfl,
      show cntAnnot dbTie 1 = 1 from rfl]
    norm_num [cmpN, cmpOpt, cmpQ, Ordering.then]
  refine ⟨rfl, hlt, rfl, ?_⟩
  rw [hlt, show claimedOrderKeys dbTie "most_reviewed" mvA mvB = .eq from rfl]
  decide

/-- C4 amended: for `best_rated` and `worst_rated`, ties in average rating
are broken secondarily by review count in descending order; for
`most_reviewed` and `least_reviewed`, ties in review count are broken
secondarily by average rating in descending order; `oldest` and `newest`
compare by release date alone, with no secondary key. -/
theorem sort_tiebreak_amended (db : DB) (a b : Movie) :
    (avgAnnot db a.id = avgAnnot db b.id →
      orderKeys db "best_rated" a b =
        cmpN (cntAnnot db b.id) (cntAnnot db a.id) ∧
      orderKeys db "worst_rated" a b =
        cmpN (cntAnnot db b.id) (cntAnnot db a.id)) ∧
    (cntAnnot db a.id = cntAnnot db b.id →
      orderKeys db "most_reviewed" a b =
        cmpOpt (avgAnnot db b.id) (avgAnnot db a.id) ∧
      orderKeys db "least_reviewed" a b =
        cmpOpt (avgAnnot db b.id) (avgAnnot db a.id)) ∧
    orderKeys db "oldest" a b = cmpZ a.release_date b.release_date ∧
    orderKeys db "newest" a b = cmpZ b.release_date a.release_date := by
  refine ⟨?_, ?_, rfl, rfl⟩
  · intro h
    constructor
    · show (cmpOpt (avgAnnot db b.id) (avgAnnot db a.id)).then
        (cmpN (cntAnnot db b.id) (cntAnnot db a.id)) = _
      rw [h, cmpOpt_self]
      rfl
    · show (cmpOpt (avgAnnot db a.id) (avgAnnot db b.id)).then
        (cmpN (cntAnnot db b.id) (cntAnnot db a.id)) = _
      rw [h, cmpOpt_self]
      rfl
  · intro h
    constructor
    · show (cmpN (cntAnnot db b.id) (cntAnnot db a.id)).then
        (cmpOpt (avgAnnot db b.id) (avgAnnot db a.id)) = _
      rw [h, cmpN_self]
      rfl
    · show (cmpN (cntAnnot db a.id) (cntAnnot db b.id)).then
        (cmpOpt (avgAnnot db b.id) (avgAnnot db a.id)) = _
      rw [h, cmpN_self]
      rfl

/-- Witness for C4 amended at concrete inputs: the two movies of `dbTie`
tie on review count, and under `most_reviewed` the code orders them by
average rating descending. -/
theorem sort_tiebreak_amended_witness :
    orderKeys dbTie "most_reviewed" mvA mvB =
      cmpOpt (avgAnnot dbTie mvB.id) (avgAnnot dbTie mvA.id) :=
  ((sort_tiebreak_amended dbTie mvA mvB).2.1 rfl).1

/-- Under the uniqueness constraint, a (user, movie) pair matches at most
one review row. -/
theorem filter_pair_length_le_one (l : List Review)
    (hl : l.Pairwise (fun a b => ¬ (a.userId = b.userId ∧ a.movieId = b.movieId)))
    (u mid : Nat) :
    (l.filter (fun r => r.userId = u && r.movieId = mid)).length ≤ 1 := by
  induction l with
  | nil => simp
  | cons a t ih =>
    rcases List.pairwise_cons.mp hl with ⟨ha, ht⟩
    by_cases hc : (a.userId = u && a.movieId = mid) = true
    · have hc' : a.userId = u ∧ a.movieId = mid := by
        simpa using hc
      have hfa : t.filter (fun r => r.userId = u && r.movieId = mid) = [] := by
        rw [List.filter_eq_nil_iff]
        intro b hb hpb
        have hb' : b.userId = u ∧ b.movieId = mid := by
          simpa using hpb
        exact ha b hb ⟨hc'.1.trans hb'.1.symm, hc'.2.trans hb'.2.symm⟩
      rw [List.filter_cons, if_pos hc, hfa]
      simp
    · rw [List.filter_cons, if_neg hc]
      exact ih ht

/-- Filtering a (user, movie) pair commutes with the in-place rating
update, because the update never changes a row's foreign keys. -/
theorem filter_upsert_map (l : List Review) (u mid : Nat) (rating : ℤ)
    (comment : String) :
    (l.map (fun r => if r.userId = u && r.movieId = mid then
        { r with rating := rating, comment := comment } else r)).filter
      (fun r => r.userId = u && r.movieId = mid) =
    (l.filter (fun r => r.userId = u && r.movieId = mid)).map
      (fun r => if r.userId = u && r.movieId = mid then
        { r with rating := rating, comment := comment } else r) := by
  induction l with
  | nil => rfl
  | cons a t ih =>
    by_cases hc : (a.userId = u && a.movieId = mid) = true
    · have hga : (if a.userId = u && a.movieId = mid then
          ({ a with rating := rating, comment := comment } : Review) else a) =
          { a with rating := rating, comment := comment } := by
        rw [if_pos hc]
      have hpa : ((({ a with rating := rating, comment := comment } : Review).userId
          = u) && (({ a with rating := rating, comment := comment } : Review).movieId
          = mid)) = true := hc
      rw [List.map_cons, hga, List.filter_cons, if_pos hpa,
        List.filter_cons, if_pos hc, List.map_cons, ih, hga]
    · have hga : (if a.userId = u && a.movieId = mid then
          ({ a with rating := rating, comment := comment } : Review) else a) = a := by
        rw [if_neg hc]
      rw [List.map_cons, hga, List.filter_cons, if_neg hc,
        List.filter_cons, if_neg hc, ih]

/-- C2: when a user already has a review row for a movie, submitting a new
review — through the detail page's POST branch or the review API's
create — overwrites that row in place instead of inserting a second one:
the total number of review rows is unchanged, and afterwards exactly one
row exists for the (user, movie) pair, carrying the newly submitted
rating and comment. -/
theorem review_upsert (db : DB) (u mid : Nat) (rating : ℤ) (comment : String)
    (hu : UniqueReviews db) (hex : findReview db u mid ≠ none) :
    (reviewsFor (submit_review db u mid rating comment) u mid).length = 1 ∧
    (∀ r ∈ reviewsFor (submit_review db u mid rating comment) u mid,
      r.rating = rating ∧ r.comment = comment) ∧
    (submit_review db u mid rating comment).reviews.length = db.reviews.length := by
  cases h : findReview db u mid with
  | none => exact absurd h hex
  | some r0 =>
    have hsub : (submit_review db u mid rating comment).reviews =
        db.reviews.map (fun r => if r.userId = u && r.movieId = mid then
          { r with rating := rating, comment := comment } else r) := by
      rw [submit_review, h]
    have hfilter : reviewsFor (submit_review db u mid rating comment) u mid =
        (reviewsFor db u mid).map (fun r => if r.userId = u && r.movieId = mid then
          { r with rating := rating, comment := comment } else r) := by
      rw [reviewsFor, hsub, filter_upsert_map, reviewsFor]
    have hne : reviewsFor db u mid ≠ [] := by
      intro hnil
      have : findReview db u mid = none := by
        rw [findReview, show (db.reviews.filter
          (fun r => r.userId = u && r.movieId = mid)) = reviewsFor db u mid from rfl,
          hnil]
        rfl
      rw [this] at h
      exact Option.noConfusion h
    have hle : (reviewsFor db u mid).length ≤ 1 :=
      filter_pair_length_le_one db.reviews hu u mid
    have hpos : 0 < (reviewsFor db u mid).length := List.length_pos.mpr hne
    have hlen1 : (reviewsFor db u mid).length = 1 := by omega
    refine ⟨?_, ?_, ?_⟩
    · rw [hfilter, List.length_map]
      exact hlen1
    · intro r hr
      rw [hfilter] at hr
      rcases List.mem_map.mp hr with ⟨r', hr', hrr⟩
      have hp' : (r'.userId = u && r'.movieId = mid) = true :=
        (List.mem_filter.mp hr').2
      rw [← hrr, if_pos hp']
      exact ⟨rfl, rfl⟩
    · rw [hsub, List.length_map]

/-- Witness for C2 at concrete inputs: user 7 already reviewed movie 1
with rating 4 in `dbOne`; submitting rating 2 leaves exactly one row for
the pair, and it carries rating 2. -/
theorem review_upsert_witness :
    (reviewsFor (submit_review dbOne 7 1 2 "changed") 7 1).length = 1 ∧
    (submit_review dbOne 7 1 2 "changed").reviews.length = dbOne.reviews.length := by
  obtain ⟨h1, _, h3⟩ := review_upsert dbOne 7 1 2 "changed"
    (by simp [UniqueReviews, dbOne]) (by decide)
  exact ⟨h1, h3⟩

end MovieApp
